import Mathlib

/-!
Verification of `scripts/benchmarks_plotter.py`.

The script is a read-only accessor layer over a parsed JSON report
(a dict mapping stringified benchmark ids to benchmark records) plus two
matplotlib renderers.  The shallow embedding below models:

* the JSON data as association lists `List (String × Benchmark)` in
  insertion order (Python dicts preserve insertion order; `d[k]` is
  `lookup`, returning `Option` where Python raises `KeyError`);
* Python `float` values as `ℚ` (all arithmetic in the script is exact
  division of integers by integers);
* Python's `str.replace`, `sorted`, `itertools.groupby` and tuple
  comparison by executable Lean functions with the same semantics;
* the matplotlib calls of each renderer as a pure record of the values
  the script passes to the drawing library; exceptions (`StopIteration`,
  `KeyError`, `AssertionError`) as `Option`/`Except` error values.
-/

set_option maxRecDepth 8000

set_option allowUnsafeReducibility true in
attribute [semireducible] Rat.mul Rat.inv Rat.add Rat.sub Rat.neg Rat.div Rat.ofScientific

/-- `TimeUnit` enumeration of the script: each unit carries its fixed
divisor out of nanoseconds (`NANO = 1`, `MICRO = 1_000`, `MILLI =
1_000_000`, `SEC = 1_000_000_000`). -/
inductive TimeUnit where
  | NANO
  | MICRO
  | MILLI
  | SEC
deriving DecidableEq

/-- The `Enum` member value of a `TimeUnit` (`unit.value` in the script). -/
def TimeUnit.value : TimeUnit → ℤ
  | .NANO => 1
  | .MICRO => 1000
  | .MILLI => 1000000
  | .SEC => 1000000000

/-- `as_time_unit(nano_time, unit) = float(nano_time) / unit.value`.
Python floats are modelled as `ℚ`; integer arguments are cast at the call
sites. -/
def as_time_unit (nano_time : ℚ) (unit : TimeUnit) : ℚ :=
  nano_time / (unit.value : ℚ)

/-- `round_up_to(n, multiplier) = math.ceil(n / multiplier) * multiplier`. -/
def round_up_to (n : ℚ) (multiplier : ℤ) : ℤ :=
  ⌈n / (multiplier : ℚ)⌉ * multiplier

/-- One entry of a benchmark's `"scenariosStatistics"` array. -/
structure ScenarioStats where
  threads : ℤ
  operations : ℤ
  runningTimeNano : ℤ
  invocationsCount : ℤ
deriving DecidableEq

/-- One benchmark record of the report: the fields of the JSON object the
script reads (`"id"`, `"name"`, `"mode"`, `"runningTimeNano"`,
`"scenariosStatistics"`). -/
structure Benchmark where
  id : ℤ
  name : String
  mode : String
  runningTimeNano : ℤ
  scenariosStatistics : List ScenarioStats
deriving DecidableEq

/-- The state of a `BenchmarksReport` object: the parsed JSON dict
`_data` (stringified id → record, in insertion order) and the two lists
`_names` and `_modes` precomputed by `__init__`. -/
structure BenchmarksReport where
  _data : List (String × Benchmark)
  _names : List String
  _modes : List String
deriving DecidableEq

/-- Python string `<=` restricted to the character lists: lexicographic
comparison by code point, a proper prefix ranking below its extensions. -/
def charListLe : List Char → List Char → Bool
  | [], _ => true
  | _ :: _, [] => false
  | a :: as, b :: bs => if a.toNat = b.toNat then charListLe as bs else decide (a.toNat < b.toNat)

/-- Python `<=` on strings (code-point lexicographic order). -/
def strLe (a b : String) : Prop := charListLe a.data b.data = true

instance : DecidableRel strLe := fun a b => by unfold strLe; infer_instance

/-- Totality of `charListLe`, proved on raw character lists. -/
theorem charListLe_total : ∀ (a b : List Char),
    charListLe a b = true ∨ charListLe b a = true
  | [], _ => Or.inl rfl
  | _ :: _, [] => Or.inr rfl
  | a :: as, b :: bs => by
    by_cases h : a.toNat = b.toNat
    · rcases charListLe_total as bs with ih | ih
      · exact Or.inl (by simp only [charListLe, if_pos h]; exact ih)
      · exact Or.inr (by simp only [charListLe, if_pos h.symm]; exact ih)
    · rcases Nat.lt_or_ge a.toNat b.toNat with hlt | hge
      · exact Or.inl (by simp only [charListLe, if_neg h]; simpa using hlt)
      · have hne : ¬ b.toNat = a.toNat := fun e => h e.symm
        have hba : b.toNat < a.toNat := lt_of_le_of_ne hge hne
        exact Or.inr (by simp only [charListLe, if_neg hne]; simpa using hba)

instance : IsTotal String strLe where
  total a b := charListLe_total a.data b.data

/-- Transitivity of `charListLe`, proved on raw character lists. -/
theorem charListLe_trans : ∀ (a b c : List Char),
    charListLe a b = true → charListLe b c = true → charListLe a c = true
  | [], _, _, _, _ => rfl
  | _ :: _, [], _, h, _ => by simp [charListLe] at h
  | _ :: _, _ :: _, [], _, h => by simp [charListLe] at h
  | a :: as, b :: bs, c :: cs, h1, h2 => by
    simp only [charListLe] at h1 h2 ⊢
    by_cases hab : a.toNat = b.toNat
    · rw [if_pos hab] at h1
      by_cases hbc : b.toNat = c.toNat
      · rw [if_pos hbc] at h2
        rw [if_pos (hab.trans hbc)]
        exact charListLe_trans as bs cs h1 h2
      · rw [if_neg hbc] at h2
        have hac : ¬ a.toNat = c.toNat := by rw [hab]; exact hbc
        rw [if_neg hac, hab]
        exact h2
    · rw [if_neg hab] at h1
      have hab' : a.toNat < b.toNat := by simpa using h1
      by_cases hbc : b.toNat = c.toNat
      · have hac : a.toNat < c.toNat := hbc ▸ hab'
        rw [if_neg (Nat.ne_of_lt hac)]
        simpa using hac
      · rw [if_neg hbc] at h2
        have hbc' : b.toNat < c.toNat := by simpa using h2
        have hac : a.toNat < c.toNat := lt_trans hab' hbc'
        rw [if_neg (Nat.ne_of_lt hac)]
        simpa using hac

instance : IsTrans String strLe where
  trans a b c h1 h2 := charListLe_trans a.data b.data c.data h1 h2

/-- Python `sorted` on strings: a stable sort by `strLe` (insertion sort
is stable, like Python's sort). -/
def pySorted (l : List String) : List String := List.insertionSort strLe l

/-- Fuel-driven core of Python `str.replace` for a nonempty pattern:
scan left to right, replace each non-overlapping occurrence of `pat` by
`rep`.  The fuel starts at the length of the scanned list, which bounds
the number of steps. -/
def replaceListAux (pat rep : List Char) : ℕ → List Char → List Char
  | _, [] => []
  | 0, rest => rest
  | fuel + 1, c :: cs =>
    if pat.isPrefixOf (c :: cs) then rep ++ replaceListAux pat rep fuel (cs.drop (pat.length - 1))
    else c :: replaceListAux pat rep fuel cs

/-- Python `s.replace(pat, rep)` for a nonempty `pat` (the script only
ever calls it with the pattern `"Benchmark"`). -/
def pyReplace (s pat rep : String) : String :=
  ⟨replaceListAux pat.data rep.data s.data.length s.data⟩

/-- Python dict assignment `d[k] = v` on an insertion-ordered
association list: overwrite in place when the key exists, append
otherwise. -/
def dictInsert {α : Type} (d : List (String × α)) (k : String) (v : α) : List (String × α) :=
  if d.any (fun kv => kv.1 == k) then d.map (fun kv => if kv.1 == k then (k, v) else kv)
  else d ++ [(k, v)]

/-- One step of `pyGroupBy`: prepend an element of key `ka` to an
already grouped tail, extending the first group when the keys agree. -/
def pyGroupByStep {α β : Type} [DecidableEq β] (ka : β) (a : α) :
    List (β × List α) → List (β × List α)
  | [] => [(ka, [a])]
  | (k, g) :: rest =>
    if ka = k then (ka, a :: g) :: rest else (ka, [a]) :: (k, g) :: rest

/-- `itertools.groupby(l, key)`: one `(key, run)` pair per maximal run of
consecutive elements sharing a key (the script materialises each group
with `list(...)` before advancing, so the shared-iterator caveat of
`groupby` does not arise). -/
def pyGroupBy {α β : Type} [DecidableEq β] (key : α → β) : List α → List (β × List α)
  | [] => []
  | a :: as => pyGroupByStep (key a) a (pyGroupBy key as)

/-- The grouping key of `benchmark_average_runtime_by_scenario_params`:
`(stats["threads"], stats["operations"])`. -/
def statKey (s : ScenarioStats) : ℤ × ℤ := (s.threads, s.operations)

/-- One element of the list built by
`benchmark_average_runtime_by_scenario_params`: the dict
`{"params": params, "avg_runtime": avg_runtime}`. -/
structure AvgRuntimeEntry where
  params : ℤ × ℤ
  avg_runtime : ℚ
deriving DecidableEq

/-- Python `<=` on `(threads, operations)` tuples (lexicographic). -/
def pairLe (p q : ℤ × ℤ) : Prop := p.1 < q.1 ∨ (p.1 = q.1 ∧ p.2 ≤ q.2)

instance : DecidableRel pairLe := fun p q => by unfold pairLe; infer_instance

/-- The order used by `data.sort(key=itemgetter("params"))`. -/
def entryLe (e1 e2 : AvgRuntimeEntry) : Prop := pairLe e1.params e2.params

instance : DecidableRel entryLe := fun a b => by unfold entryLe; infer_instance

/-- `data.sort(key=itemgetter("params"))`: stable sort by the params
tuple. -/
def sortByParams (l : List AvgRuntimeEntry) : List AvgRuntimeEntry :=
  List.insertionSort entryLe l

namespace BenchmarksReport

/-- Python `self._data[key]`: dict lookup, `none` for a `KeyError`.
The `str(benchmark_id)` coercion the accessors apply is the identity on
the string keys the report iterates over; integer ids are stringified
with `toString` at the call sites that hold an `int`. -/
def lookup (r : BenchmarksReport) (key : String) : Option Benchmark :=
  (r._data.find? (fun kb => kb.1 == key)).map Prod.snd

/-- `benchmark_ids(self) = self._data.keys()`. -/
def benchmark_ids (r : BenchmarksReport) : List String := r._data.map Prod.fst

/-- `self._data.values()`. -/
def values (r : BenchmarksReport) : List Benchmark := r._data.map Prod.snd

/-- `benchmarks_names(self) = self._names`. -/
def benchmarks_names (r : BenchmarksReport) : List String := r._names

/-- `benchmarks_modes(self) = self._modes`. -/
def benchmarks_modes (r : BenchmarksReport) : List String := r._modes

/-- `benchmark_name(self, benchmark_id) =
self._data[str(benchmark_id)]["name"].replace("Benchmark", "")`. -/
def benchmark_name (r : BenchmarksReport) (benchmark_id : String) : Option String :=
  (r.lookup benchmark_id).map (fun b => pyReplace b.name "Benchmark" "")

/-- `benchmark_mode(self, benchmark_id) = self._data[str(benchmark_id)]["mode"]`. -/
def benchmark_mode (r : BenchmarksReport) (benchmark_id : String) : Option String :=
  (r.lookup benchmark_id).map Benchmark.mode

/-- `benchmark_id(self, name, mode)`: `next(...)` over the first record
whose stored name is `name + "Benchmark"` and whose mode is `mode`,
yielding its `"id"` field; `none` models the `StopIteration` of an
exhausted iterator. -/
def benchmark_id (r : BenchmarksReport) (name mode : String) : Option ℤ :=
  (r.values.find? (fun b => b.name == name ++ "Benchmark" && b.mode == mode)).map Benchmark.id

/-- `benchmark_scenarios_stats(self, benchmark_id)`. -/
def benchmark_scenarios_stats (r : BenchmarksReport) (benchmark_id : String) :
    Option (List ScenarioStats) :=
  (r.lookup benchmark_id).map Benchmark.scenariosStatistics

/-- `benchmark_runtime(self, benchmark_id, unit)`. -/
def benchmark_runtime (r : BenchmarksReport) (benchmark_id : String) (unit : TimeUnit) :
    Option ℚ :=
  (r.lookup benchmark_id).map (fun b => as_time_unit (b.runningTimeNano : ℚ) unit)

/-- `benchmarks_runtime(self, unit)`: the dict comprehension
`{bid: self.benchmark_runtime(bid, unit) for bid in self.benchmark_ids()}`;
a failing lookup propagates as `none`. -/
def benchmarks_runtime (r : BenchmarksReport) (unit : TimeUnit) :
    Option (List (String × ℚ)) :=
  r.benchmark_ids.foldlM (fun acc bid => do
    let rt ← r.benchmark_runtime bid unit
    pure (dictInsert acc bid rt)) []

/-- The inner dict comprehension of `benchmarks_runtime_grouped_by_name`:
`{self.benchmark_mode(bid): self.benchmark_runtime(bid, unit) for bid in ids}`
where the ids are the `"id"` fields of the group, stringified by `str`. -/
def modeRuntimeDict (r : BenchmarksReport) (unit : TimeUnit) (ids : List ℤ) :
    Option (List (String × ℚ)) :=
  ids.foldlM (fun acc bid => do
    let m ← r.benchmark_mode (toString bid)
    let rt ← r.benchmark_runtime (toString bid) unit
    pure (dictInsert acc m rt)) []

/-- `benchmarks_runtime_grouped_by_name(self, unit)`: `groupby` of the
records by full stored name, then one mode-to-runtime dict per group. -/
def benchmarks_runtime_grouped_by_name (r : BenchmarksReport) (unit : TimeUnit) :
    Option (List (String × List (String × ℚ))) :=
  (pyGroupBy Benchmark.name r.values).foldlM (fun acc g => do
    let d ← modeRuntimeDict r unit (g.2.map Benchmark.id)
    pure (dictInsert acc g.1 d)) []

/-- `benchmarks_runtime_with_mode(self, mode, unit)`: skip ids of another
mode, key the rest by displayed name. -/
def benchmarks_runtime_with_mode (r : BenchmarksReport) (mode : String) (unit : TimeUnit) :
    Option (List (String × ℚ)) :=
  r.benchmark_ids.foldlM (fun acc bid => do
    let m ← r.benchmark_mode bid
    if m ≠ mode then
      pure acc
    else do
      let nm ← r.benchmark_name bid
      let rt ← r.benchmark_runtime bid unit
      pure (dictInsert acc nm rt)) []

/-- `benchmark_average_runtime_by_scenario_params(self, benchmark_id, unit)`:
group the scenario statistics by `(threads, operations)` with
`itertools.groupby`, and for each group emit
`as_time_unit(float(sum runningTimeNano) / sum invocationsCount, unit)`. -/
def benchmark_average_runtime_by_scenario_params (r : BenchmarksReport)
    (benchmark_id : String) (unit : TimeUnit) : Option (List AvgRuntimeEntry) :=
  (r.benchmark_scenarios_stats benchmark_id).map (fun stats =>
    (pyGroupBy statKey stats).map (fun pg =>
      { params := pg.1
        avg_runtime :=
          as_time_unit
            (((pg.2.map ScenarioStats.runningTimeNano).sum : ℚ) /
              ((pg.2.map ScenarioStats.invocationsCount).sum : ℚ)) unit }))

end BenchmarksReport

/-- `BenchmarksReport.__init__(self, data)`: store the dict and
precompute `sorted(set(...))` of the displayed names and of the modes
(iterating the dict's keys and looking each key up visits each record
once, in insertion order). -/
def BenchmarksReport.init (data : List (String × Benchmark)) : BenchmarksReport :=
  { _data := data
    _names := pySorted ((data.map (fun kb => pyReplace kb.2.name "Benchmark" "")).dedup)
    _modes := pySorted ((data.map (fun kb => kb.2.mode)).dedup) }

/-- The values `runtime_plot` passes to the drawing library: title,
y-label, the two `set_ylim` arguments, the rotated x-tick labels, and
one `(mode, data)` bar series per mode. -/
structure RuntimePlotResult where
  title : String
  ylabel : String
  ylim_lo : ℚ
  ylim_hi : ℤ
  xtick_labels : List String
  bars : List (String × List ℚ)
deriving DecidableEq

/-- `runtime_plot(ax, report)`: compute the maximum total runtime in
seconds (`max` of an empty sequence raises, modelled as `none`), draw one
bar series per mode, and set the y-limit to the maximum rounded up to
the next multiple of ten. -/
def runtime_plot (report : BenchmarksReport) : Option RuntimePlotResult := do
  let runtimes ← report.benchmarks_runtime TimeUnit.SEC
  let max_runtime ← (runtimes.map Prod.snd).max?
  let bars ← report.benchmarks_modes.foldlM (fun acc mode => do
    let d ← report.benchmarks_runtime_with_mode mode TimeUnit.SEC
    pure (acc ++ [(mode, d.map Prod.snd)])) ([] : List (String × List ℚ))
  pure { title := "Benchmarks running time", ylabel := "time (s)",
         ylim_lo := 0, ylim_hi := round_up_to max_runtime 10,
         xtick_labels := report.benchmarks_names, bars := bars }

/-- The exceptions `scenarios_average_runtime_plot` can raise:
`StopIteration` from `next` in `benchmark_id`, `KeyError` from a dict
lookup with a missing stringified id, and `AssertionError` from the
params comparison. -/
inductive PyError where
  | stopIteration
  | keyError
  | assertionError
deriving DecidableEq

/-- The loop state of `scenarios_average_runtime_plot`: `x` (the length
of the `np.arange` array, initially that of the empty list), the
`params` accumulator and the bar series drawn so far. -/
structure ScenariosAcc where
  x : ℕ
  params : List (ℤ × ℤ)
  bars : List (String × List ℚ)
deriving DecidableEq

/-- The values `scenarios_average_runtime_plot` passes to the drawing
library once its loop over the modes has finished. -/
structure ScenariosPlotResult where
  title : String
  ylabel : String
  xlabel : String
  xticks_count : ℕ
  xtick_labels : List (ℤ × ℤ)
  bars : List (String × List ℚ)
deriving DecidableEq

/-- One iteration of the mode loop of `scenarios_average_runtime_plot`:
look the id up (`StopIteration` when no record matches), fetch and sort
the averaged data, draw the bars, and check the scenario params against
the accumulator (`assert params == scenario_params`, skipped while the
accumulator is the empty -- falsy -- list). -/
def scenarios_step (report : BenchmarksReport) (benchmark_name : String)
    (acc : ScenariosAcc) (mode : String) : Except PyError ScenariosAcc :=
  match report.benchmark_id benchmark_name mode with
  | none => .error .stopIteration
  | some bid =>
    match report.benchmark_average_runtime_by_scenario_params (toString bid) TimeUnit.MILLI with
    | none => .error .keyError
    | some data0 =>
      let data := sortByParams data0
      let runtimes := data.map AvgRuntimeEntry.avg_runtime
      let scenario_params := data.map AvgRuntimeEntry.params
      let acc1 : ScenariosAcc :=
        { x := data.length, params := acc.params, bars := acc.bars ++ [(mode, runtimes)] }
      if acc.params = [] then .ok { acc1 with params := scenario_params }
      else if acc.params = scenario_params then .ok acc1
      else .error .assertionError

/-- `scenarios_average_runtime_plot(ax, report, benchmark_name)`: fold
the mode loop, then emit the title, labels, x-ticks and bar series. -/
def scenarios_average_runtime_plot (report : BenchmarksReport) (benchmark_name : String) :
    Except PyError ScenariosPlotResult := do
  let acc ← report.benchmarks_modes.foldlM (scenarios_step report benchmark_name) ⟨0, [], []⟩
  pure { title := benchmark_name ++ "\nInvocation average running time by scenario size",
         ylabel := "time (ms)", xlabel := "(#threads, #operations)",
         xticks_count := acc.x, xtick_labels := acc.params, bars := acc.bars }

/-- State-passing form of `benchmark_ids`: the method reads `self` and
returns it unchanged. -/
def benchmark_ids_run (r : BenchmarksReport) : List String × BenchmarksReport :=
  (r.benchmark_ids, r)

/-- State-passing form of `benchmarks_names`. -/
def benchmarks_names_run (r : BenchmarksReport) : List String × BenchmarksReport :=
  (r.benchmarks_names, r)

/-- State-passing form of `benchmarks_modes`. -/
def benchmarks_modes_run (r : BenchmarksReport) : List String × BenchmarksReport :=
  (r.benchmarks_modes, r)

/-- State-passing form of `benchmark_name`. -/
def benchmark_name_run (r : BenchmarksReport) (bid : String) :
    Option String × BenchmarksReport :=
  (r.benchmark_name bid, r)

/-- State-passing form of `benchmark_mode`. -/
def benchmark_mode_run (r : BenchmarksReport) (bid : String) :
    Option String × BenchmarksReport :=
  (r.benchmark_mode bid, r)

/-- State-passing form of `benchmark_id`. -/
def benchmark_id_run (r : BenchmarksReport) (name mode : String) :
    Option ℤ × BenchmarksReport :=
  (r.benchmark_id name mode, r)

/-- State-passing form of `benchmark_scenarios_stats`. -/
def benchmark_scenarios_stats_run (r : BenchmarksReport) (bid : String) :
    Option (List ScenarioStats) × BenchmarksReport :=
  (r.benchmark_scenarios_stats bid, r)

/-- State-passing form of `benchmark_runtime`. -/
def benchmark_runtime_run (r : BenchmarksReport) (bid : String) (u : TimeUnit) :
    Option ℚ × BenchmarksReport :=
  (r.benchmark_runtime bid u, r)

/-- State-passing form of `benchmarks_runtime`. -/
def benchmarks_runtime_run (r : BenchmarksReport) (u : TimeUnit) :
    Option (List (String × ℚ)) × BenchmarksReport :=
  (r.benchmarks_runtime u, r)

/-- State-passing form of `benchmarks_runtime_grouped_by_name`. -/
def benchmarks_runtime_grouped_by_name_run (r : BenchmarksReport) (u : TimeUnit) :
    Option (List (String × List (String × ℚ))) × BenchmarksReport :=
  (r.benchmarks_runtime_grouped_by_name u, r)

/-- State-passing form of `benchmarks_runtime_with_mode`. -/
def benchmarks_runtime_with_mode_run (r : BenchmarksReport) (mode : String) (u : TimeUnit) :
    Option (List (String × ℚ)) × BenchmarksReport :=
  (r.benchmarks_runtime_with_mode mode u, r)

/-- State-passing form of `benchmark_average_runtime_by_scenario_params`. -/
def benchmark_average_runtime_by_scenario_params_run (r : BenchmarksReport)
    (bid : String) (u : TimeUnit) : Option (List AvgRuntimeEntry) × BenchmarksReport :=
  (r.benchmark_average_runtime_by_scenario_params bid u, r)

/-- Every accessor of `BenchmarksReport`, run in state-passing form,
returns the report state unchanged (in particular `_data`, `_names` and
`_modes` are untouched). -/
def accessorsPreserve (r : BenchmarksReport) : Prop :=
  ∀ (bid name mode : String) (u : TimeUnit),
    (benchmark_ids_run r).2 = r ∧
    (benchmarks_names_run r).2 = r ∧
    (benchmarks_modes_run r).2 = r ∧
    (benchmark_name_run r bid).2 = r ∧
    (benchmark_mode_run r bid).2 = r ∧
    (benchmark_id_run r name mode).2 = r ∧
    (benchmark_scenarios_stats_run r bid).2 = r ∧
    (benchmark_runtime_run r bid u).2 = r ∧
    (benchmarks_runtime_run r u).2 = r ∧
    (benchmarks_runtime_grouped_by_name_run r u).2 = r ∧
    (benchmarks_runtime_with_mode_run r mode u).2 = r ∧
    (benchmark_average_runtime_by_scenario_params_run r bid u).2 = r

/-- Running each accessor a second time, on the state the first call
returned and with equal arguments, yields an equal result. -/
def repeatedCallsAgree (r : BenchmarksReport) : Prop :=
  ∀ (bid name mode : String) (u : TimeUnit),
    (benchmark_ids_run (benchmark_ids_run r).2).1 = (benchmark_ids_run r).1 ∧
    (benchmarks_names_run (benchmarks_names_run r).2).1 = (benchmarks_names_run r).1 ∧
    (benchmarks_modes_run (benchmarks_modes_run r).2).1 = (benchmarks_modes_run r).1 ∧
    (benchmark_name_run (benchmark_name_run r bid).2 bid).1 = (benchmark_name_run r bid).1 ∧
    (benchmark_mode_run (benchmark_mode_run r bid).2 bid).1 = (benchmark_mode_run r bid).1 ∧
    (benchmark_id_run (benchmark_id_run r name mode).2 name mode).1 =
      (benchmark_id_run r name mode).1 ∧
    (benchmark_scenarios_stats_run (benchmark_scenarios_stats_run r bid).2 bid).1 =
      (benchmark_scenarios_stats_run r bid).1 ∧
    (benchmark_runtime_run (benchmark_runtime_run r bid u).2 bid u).1 =
      (benchmark_runtime_run r bid u).1 ∧
    (benchmarks_runtime_run (benchmarks_runtime_run r u).2 u).1 =
      (benchmarks_runtime_run r u).1 ∧
    (benchmarks_runtime_grouped_by_name_run
        (benchmarks_runtime_grouped_by_name_run r u).2 u).1 =
      (benchmarks_runtime_grouped_by_name_run r u).1 ∧
    (benchmarks_runtime_with_mode_run
        (benchmarks_runtime_with_mode_run r mode u).2 mode u).1 =
      (benchmarks_runtime_with_mode_run r mode u).1 ∧
    (benchmark_average_runtime_by_scenario_params_run
        (benchmark_average_runtime_by_scenario_params_run r bid u).2 bid u).1 =
      (benchmark_average_runtime_by_scenario_params_run r bid u).1

/-- The scenario statistics of the worked example of the spec: two
entries for `(threads=2, operations=10)` with runtimes 100 and 300 ns
and one invocation each. -/
def statsC1 : List ScenarioStats :=
  [⟨2, 10, 100, 1⟩, ⟨2, 10, 300, 1⟩]

/-- The benchmark record of the worked example. -/
def bFoo : Benchmark :=
  { id := 1, name := "FooBenchmark", mode := "stress", runningTimeNano := 400,
    scenariosStatistics := statsC1 }

/-- A one-benchmark report used by the concrete witnesses. -/
def repFoo : BenchmarksReport := BenchmarksReport.init [("1", bFoo)]

/-- A report whose single record has a stored name in which
`"Benchmark"` occurs beyond the final suffix. -/
def repStray : BenchmarksReport :=
  BenchmarksReport.init
    [("1", { id := 1, name := "BenchmarkFoo" ++ "Benchmark", mode := "m",
             runningTimeNano := 0, scenariosStatistics := [] })]

/-- A report with no benchmark records. -/
def repEmpty : BenchmarksReport := BenchmarksReport.init []

/-- A two-mode report in which both modes of benchmark `X` produce the
same `(threads, operations)` key list. -/
def repScenGood : BenchmarksReport :=
  BenchmarksReport.init
    [("1", { id := 1, name := "XBenchmark", mode := "a", runningTimeNano := 100,
             scenariosStatistics := [⟨2, 10, 100, 1⟩] }),
     ("2", { id := 2, name := "XBenchmark", mode := "b", runningTimeNano := 300,
             scenariosStatistics := [⟨2, 10, 300, 1⟩] })]

/-- A two-mode report in which the two modes of benchmark `X` produce
different `(threads, operations)` key lists. -/
def repScenBad : BenchmarksReport :=
  BenchmarksReport.init
    [("1", { id := 1, name := "XBenchmark", mode := "a", runningTimeNano := 100,
             scenariosStatistics := [⟨2, 10, 100, 1⟩] }),
     ("2", { id := 2, name := "XBenchmark", mode := "b", runningTimeNano := 300,
             scenariosStatistics := [⟨4, 20, 100, 1⟩] })]

/-- The drawing record `runtime_plot` produces on `repFoo`. -/
def resFoo : RuntimePlotResult :=
  { title := "Benchmarks running time", ylabel := "time (s)",
    ylim_lo := 0, ylim_hi := 10, xtick_labels := ["Foo"],
    bars := [("stress", [(400 : ℚ) / 1000000000])] }

/-- `pyGroupBy` yields no group only on the empty list. -/
theorem pyGroupBy_nil_iff {α β : Type} [DecidableEq β] (key : α → β) (l : List α) :
    pyGroupBy key l = [] ↔ l = [] := by
  cases l with
  | nil => simp [pyGroupBy]
  | cons a as =>
    simp only [pyGroupBy]
    constructor
    · intro h
      exfalso
      rcases hg : pyGroupBy key as with _ | ⟨⟨k, g⟩, rest⟩
      · rw [hg] at h
        simp [pyGroupByStep] at h
      · rw [hg] at h
        simp only [pyGroupByStep] at h
        by_cases hk : key a = k
        · rw [if_pos hk] at h
          cases h
        · rw [if_neg hk] at h
          cases h
    · intro h
      cases h

/-- Every element's key appears among the group keys. -/
theorem key_mem_pyGroupBy {α β : Type} [DecidableEq β] (key : α → β) :
    ∀ (l : List α) (x : α), x ∈ l → key x ∈ (pyGroupBy key l).map Prod.fst
  | [], x, hx => absurd hx (List.not_mem_nil x)
  | a :: as, x, hx => by
    simp only [pyGroupBy]
    rcases hg : pyGroupBy key as with _ | ⟨⟨k, g⟩, rest⟩
    · have has : as = [] := (pyGroupBy_nil_iff key as).mp hg
      subst has
      rcases List.mem_singleton.mp hx with rfl
      simp [pyGroupByStep]
    · rcases List.mem_cons.mp hx with rfl | hx2
      · simp only [pyGroupByStep]
        by_cases hk : key x = k <;> simp [hk]
      · have ih := key_mem_pyGroupBy key as x hx2
        rw [hg] at ih
        simp only [List.map_cons, List.mem_cons] at ih
        simp only [pyGroupByStep]
        by_cases hk : key a = k
        · rw [if_pos hk]
          simp only [List.map_cons, List.mem_cons]
          rcases ih with h | h
          · exact Or.inl (h.trans hk.symm)
          · exact Or.inr h
        · rw [if_neg hk]
          simp only [List.map_cons, List.mem_cons]
          tauto

/-- With pairwise distinct group keys (equal keys are consecutive in the
input), the group of key `p` holds exactly the input elements of key
`p`, in order. -/
theorem pyGroupBy_filter {α β : Type} [DecidableEq β] (key : α → β) :
    ∀ l : List α, ((pyGroupBy key l).map Prod.fst).Nodup →
      ∀ pg ∈ pyGroupBy key l, pg.2 = l.filter (fun x => decide (key x = pg.1))
  | [], _, pg, hpg => absurd hpg (by simp [pyGroupBy])
  | a :: as, hnd, pg, hpg => by
    simp only [pyGroupBy] at hnd hpg
    rcases hg : pyGroupBy key as with _ | ⟨⟨k, g⟩, rest⟩
    · have has : as = [] := (pyGroupBy_nil_iff key as).mp hg
      subst has
      rw [hg] at hpg
      simp only [pyGroupByStep] at hpg
      rcases List.mem_singleton.mp hpg with rfl
      simp
    · rw [hg] at hnd hpg
      simp only [pyGroupByStep] at hnd hpg
      by_cases hk : key a = k
      · subst hk
        rw [if_pos rfl] at hnd hpg
        simp only [List.map_cons, List.nodup_cons] at hnd
        have hnd2 : ((pyGroupBy key as).map Prod.fst).Nodup := by
          rw [hg]
          simp only [List.map_cons, List.nodup_cons]
          exact hnd
        have ih := pyGroupBy_filter key as hnd2
        rw [hg] at ih
        rcases List.mem_cons.mp hpg with rfl | htail
        · have hg1 : g = as.filter (fun x => decide (key x = key a)) := by
            simpa using ih (key a, g) (List.mem_cons_self _ _)
          simp [List.filter_cons, hg1]
        · have h2 := ih pg (List.mem_cons_of_mem _ htail)
          have hkey : pg.1 ∈ rest.map Prod.fst :=
            List.mem_map_of_mem Prod.fst htail
          have hne : ¬ key a = pg.1 := fun e => hnd.1 (e ▸ hkey)
          simp only [List.filter_cons, decide_eq_true_eq]
          rw [if_neg hne]
          exact h2
      · rw [if_neg hk] at hnd hpg
        simp only [List.map_cons, List.nodup_cons, List.mem_cons] at hnd
        have hnotin : key a ∉ (pyGroupBy key as).map Prod.fst := by
          rw [hg]
          simp only [List.map_cons, List.mem_cons]
          push_neg
          exact ⟨hk, fun h => hnd.1 (Or.inr h)⟩
        have hnd2 : ((pyGroupBy key as).map Prod.fst).Nodup := by
          rw [hg]
          simpa using hnd.2
        have ih := pyGroupBy_filter key as hnd2
        rw [hg] at ih
        rcases List.mem_cons.mp hpg with rfl | htail
        · have hfil : as.filter (fun x => decide (key x = key a)) = [] := by
            rw [List.filter_eq_nil_iff]
            intro x hx
            simp only [decide_eq_true_eq]
            intro he
            exact hnotin (he ▸ key_mem_pyGroupBy key as x hx)
          simp [List.filter_cons, hfil]
        · have h2 := ih pg htail
          have hkey : pg.1 ∈ (pyGroupBy key as).map Prod.fst := by
            rw [hg]
            exact List.mem_map_of_mem Prod.fst htail
          have hne : ¬ key a = pg.1 := fun e => hnotin (e ▸ hkey)
          simp only [List.filter_cons, decide_eq_true_eq]
          rw [if_neg hne]
          exact h2

/-- `"Benchmark"` has no nonempty proper border: no nonempty proper
suffix of it equals the prefix of the same length. -/
theorem benchmark_no_border : ∀ m : ℕ, m < 9 → 1 ≤ m →
    "Benchmark".data.drop m ≠ "Benchmark".data.take (9 - m) := by decide

/-- Scanning `s ++ "Benchmark"` with a nonempty `s` that does not
contain `"Benchmark"`, no occurrence of the pattern starts at the first
position: an occurrence inside `s` is excluded by the hypothesis, and an
occurrence straddling the boundary would give `"Benchmark"` a border. -/
theorem benchmark_not_prefix_append (s : List Char) (hne : s ≠ [])
    (hocc : ¬ ("Benchmark".data <:+: s)) :
    ¬ ("Benchmark".data.isPrefixOf (s ++ "Benchmark".data) = true) := by
  intro h
  rw [List.isPrefixOf_iff_prefix] at h
  obtain ⟨t, ht⟩ := h
  have h9 : ("Benchmark".data).length = 9 := by decide
  by_cases hm : 9 ≤ s.length
  · have h1 : ("Benchmark".data ++ t).take 9 = "Benchmark".data :=
      List.take_left' h9
    have h2 : (s ++ "Benchmark".data).take 9 = s.take 9 :=
      List.take_append_of_le_length hm
    have h3 : "Benchmark".data = s.take 9 := by rw [← h1, ht, h2]
    exact hocc (h3 ▸ (List.take_prefix 9 s).isInfix)
  · push_neg at hm
    have hlen1 : 1 ≤ s.length := by
      cases s with
      | nil => exact absurd rfl hne
      | cons c cs => simp
    have hd : "Benchmark".data.drop s.length ++ t = "Benchmark".data := by
      have hc := congrArg (List.drop s.length) ht
      rwa [List.drop_append_of_le_length (by omega), List.drop_left] at hc
    have hlen2 : ("Benchmark".data.drop s.length).length = 9 - s.length := by
      rw [List.length_drop, h9]
    have ht2 : "Benchmark".data.drop s.length = "Benchmark".data.take (9 - s.length) := by
      have hc := congrArg (List.take (9 - s.length)) hd
      rwa [List.take_left' hlen2] at hc
    exact benchmark_no_border s.length hm hlen1 ht2

/-- Replacing `"Benchmark"` in `"Benchmark"` itself yields the empty
list, for any fuel at least one. -/
theorem replaceListAux_bench_self (fuel : ℕ) :
    replaceListAux "Benchmark".data [] (fuel + 1) "Benchmark".data = [] := by
  simp only [replaceListAux]
  rw [if_pos (by decide)]
  show [] ++ replaceListAux "Benchmark".data [] fuel [] = []
  cases fuel <;> rfl

/-- Replacing `"Benchmark"` by the empty string in `s ++ "Benchmark"`
strips exactly the final copy when `"Benchmark"` does not occur in `s`. -/
theorem replaceListAux_append_bench : ∀ (s : List Char) (fuel : ℕ), s.length ≤ fuel →
    ¬ ("Benchmark".data <:+: s) →
    replaceListAux "Benchmark".data [] (fuel + 1) (s ++ "Benchmark".data) = s
  | [], fuel, _, _ => replaceListAux_bench_self fuel
  | c :: cs, fuel, hlen, hocc => by
    cases fuel with
    | zero => simp at hlen
    | succ f =>
      have hlen2 : cs.length ≤ f := by simpa using hlen
      have hocc2 : ¬ ("Benchmark".data <:+: cs) := fun h => hocc (List.infix_cons h)
      have hnp := benchmark_not_prefix_append (c :: cs) (by simp) hocc
      rw [List.cons_append] at hnp
      rw [List.cons_append]
      simp only [replaceListAux]
      rw [if_neg hnp]
      rw [replaceListAux_append_bench cs f hlen2 hocc2]

/-- `(s + "Benchmark").replace("Benchmark", "") == s` whenever
`"Benchmark"` does not occur in `s`. -/
theorem pyReplace_append_bench (s : String)
    (hocc : ¬ ("Benchmark".data <:+: s.data)) :
    pyReplace (s ++ "Benchmark") "Benchmark" "" = s := by
  unfold pyReplace
  rw [show ("" : String).data = [] from rfl]
  have hdata : (s ++ "Benchmark").data = s.data ++ "Benchmark".data :=
    String.data_append s "Benchmark"
  have hlen : (s.data ++ "Benchmark".data).length = s.data.length + 8 + 1 := by
    rw [List.length_append]
    have h9 : ("Benchmark".data).length = 9 := by decide
    omega
  rw [hdata, hlen]
  rw [replaceListAux_append_bench s.data (s.data.length + 8) (by omega) hocc]

/-- `benchmark_name` on a record stored as `s + "Benchmark"` displays
`s`, provided `"Benchmark"` does not occur in `s`. -/
theorem benchmark_name_strips (r : BenchmarksReport) (key : String) (b : Benchmark)
    (s : String) (hb : r.lookup key = some b) (hname : b.name = s ++ "Benchmark")
    (hocc : ¬ ("Benchmark".data <:+: s.data)) :
    r.benchmark_name key = some s := by
  unfold BenchmarksReport.benchmark_name
  rw [hb]
  simp only [Option.map_some']
  rw [hname, pyReplace_append_bench s hocc]

/-- `sorted(set(l))` (modelled as `pySorted l.dedup`) is sorted, has no
duplicates, holds exactly the elements of `l`, and counts each member
once. -/
theorem pySorted_dedup_props (l : List String) :
    (pySorted l.dedup).Sorted strLe ∧ (pySorted l.dedup).Nodup ∧
    (∀ s, s ∈ pySorted l.dedup ↔ s ∈ l) ∧
    ∀ s ∈ pySorted l.dedup, (pySorted l.dedup).count s = 1 := by
  have hperm : List.Perm (pySorted l.dedup) l.dedup := List.perm_insertionSort strLe l.dedup
  have hsorted : (pySorted l.dedup).Sorted strLe := List.sorted_insertionSort strLe l.dedup
  have hnodup : (pySorted l.dedup).Nodup := hperm.nodup_iff.mpr (List.nodup_dedup l)
  refine ⟨hsorted, hnodup, fun s => ?_, fun s hs => List.count_eq_one_of_mem hnodup hs⟩
  rw [hperm.mem_iff, List.mem_dedup]

/-- All twelve accessors leave the report state unchanged. -/
theorem accessors_preserve_all (r : BenchmarksReport) : accessorsPreserve r :=
  fun _ _ _ _ => ⟨rfl, rfl, rfl, rfl, rfl, rfl, rfl, rfl, rfl, rfl, rfl, rfl⟩

/-- All twelve accessors return equal results on repeated calls. -/
theorem repeated_calls_agree_all (r : BenchmarksReport) : repeatedCallsAgree r :=
  fun _ _ _ _ => ⟨rfl, rfl, rfl, rfl, rfl, rfl, rfl, rfl, rfl, rfl, rfl, rfl⟩

/-- The mode loop of `scenarios_average_runtime_plot` succeeds whenever
every visited mode resolves to a benchmark id whose sorted scenario-key
list is the common list `L`; the accumulator's params list is `[]` or
`L` throughout. -/
theorem scenarios_fold_ok (r : BenchmarksReport) (bname : String) (L : List (ℤ × ℤ)) :
    ∀ modes : List String,
      (∀ mode ∈ modes, ∃ bid : ℤ, r.benchmark_id bname mode = some bid ∧
        (r.benchmark_average_runtime_by_scenario_params (toString bid) TimeUnit.MILLI).map
          (fun data => (sortByParams data).map AvgRuntimeEntry.params) = some L) →
      ∀ acc : ScenariosAcc, acc.params = [] ∨ acc.params = L →
      ∃ out, modes.foldlM (scenarios_step r bname) acc = Except.ok out
  | [], _, acc, _ => ⟨acc, rfl⟩
  | m :: ms, hpre, acc, hacc => by
    obtain ⟨bid, hbid, havg⟩ := hpre m (List.mem_cons_self m ms)
    obtain ⟨data0, hdata0, hkeys⟩ := Option.map_eq_some'.mp havg
    have hstep : ∃ acc2 : ScenariosAcc, scenarios_step r bname acc m = Except.ok acc2 ∧
        (acc2.params = [] ∨ acc2.params = L) := by
      simp only [scenarios_step, hbid, hdata0]
      by_cases hL : acc.params = []
      · rw [if_pos hL]
        exact ⟨_, rfl, Or.inr hkeys⟩
      · rcases hacc with he | he
        · exact absurd he hL
        · have heq : acc.params = (sortByParams data0).map AvgRuntimeEntry.params := by
            rw [he, ← hkeys]
          rw [if_neg hL, if_pos heq]
          exact ⟨_, rfl, Or.inr he⟩
    obtain ⟨acc2, hacc2, hinv⟩ := hstep
    obtain ⟨out, hout⟩ := scenarios_fold_ok r bname L ms
      (fun mode hm => hpre mode (List.mem_cons_of_mem _ hm)) acc2 hinv
    refine ⟨out, ?_⟩
    rw [List.foldlM_cons, hacc2]
    simpa using hout

/-- C4: converting a non-negative integer nanosecond value to any unit
with `as_time_unit` and multiplying back by the unit's fixed ratio
`unit.value` recovers the value (exactly, in the `ℚ` model of Python
floats, hence within floating-point tolerance). -/
theorem as_time_unit_roundtrip (t : ℕ) (u : TimeUnit) :
    as_time_unit (t : ℚ) u * ((u.value : ℤ) : ℚ) = (t : ℚ) := by
  unfold as_time_unit
  cases u <;>
    · rw [div_mul_cancel₀]
      simp [TimeUnit.value]

/-- C3: when no record of the report has stored name `name + "Benchmark"`
together with mode `mode`, `benchmark_id` yields no value: the `next`
call exhausts its iterator, modelled as `none` (`StopIteration`). -/
theorem benchmark_id_missing_none (r : BenchmarksReport) (name mode : String)
    (h : ∀ b ∈ r.values, ¬ (b.name = name ++ "Benchmark" ∧ b.mode = mode)) :
    r.benchmark_id name mode = none := by
  unfold BenchmarksReport.benchmark_id
  have hf : r.values.find? (fun b => b.name == name ++ "Benchmark" && b.mode == mode) =
      none := by
    rw [List.find?_eq_none]
    intro b hb
    simpa using h b hb
  rw [hf]
  rfl

/-- C3 witness: `repFoo` has no record named `"ZzzBenchmark"` of mode
`"stress"`, and looking that pair up yields `none`. -/
theorem benchmark_id_missing_none_witness :
    (∀ b ∈ repFoo.values, ¬ (b.name = "Zzz" ++ "Benchmark" ∧ b.mode = "stress")) ∧
    repFoo.benchmark_id "Zzz" "stress" = none :=
  ⟨by decide, benchmark_id_missing_none repFoo "Zzz" "stress" (by decide)⟩

/-- C6: on a report with no benchmark records, `runtime_plot` fails:
`max` of the empty runtime sequence raises (modelled as `none`), and the
error propagates out of the renderer with no recovery path. -/
theorem runtime_plot_empty_none (r : BenchmarksReport)
    (h : r.benchmark_ids = []) : runtime_plot r = none := by
  unfold runtime_plot BenchmarksReport.benchmarks_runtime
  rw [h]
  rfl

/-- C6 witness: the empty report has no benchmark ids and `runtime_plot`
fails on it. -/
theorem runtime_plot_empty_none_witness :
    repEmpty.benchmark_ids = [] ∧ runtime_plot repEmpty = none :=
  ⟨rfl, runtime_plot_empty_none repEmpty rfl⟩

/-- C7: every accessor of `BenchmarksReport`, run in state-passing form,
leaves the loaded data and the precomputed name/mode lists unchanged,
and repeated calls with equal arguments on the same report return equal
results. -/
theorem accessors_pure (r : BenchmarksReport) :
    accessorsPreserve r ∧ repeatedCallsAgree r :=
  ⟨accessors_preserve_all r, repeated_calls_agree_all r⟩

/-- C8: after construction, `benchmarks_names()` and `benchmarks_modes()`
are sorted ascending (by the code-point order `strLe`), contain every
distinct displayed name (resp. mode) of the data exactly once, and no
subsequent accessor changes them (every accessor preserves the state). -/
theorem names_modes_sorted_unique (data : List (String × Benchmark)) :
    ((BenchmarksReport.init data).benchmarks_names.Sorted strLe ∧
     (BenchmarksReport.init data).benchmarks_names.Nodup ∧
     (∀ s : String, s ∈ (BenchmarksReport.init data).benchmarks_names ↔
        s ∈ data.map (fun kb => pyReplace kb.2.name "Benchmark" "")) ∧
     (∀ s ∈ (BenchmarksReport.init data).benchmarks_names,
        (BenchmarksReport.init data).benchmarks_names.count s = 1)) ∧
    ((BenchmarksReport.init data).benchmarks_modes.Sorted strLe ∧
     (BenchmarksReport.init data).benchmarks_modes.Nodup ∧
     (∀ s : String, s ∈ (BenchmarksReport.init data).benchmarks_modes ↔
        s ∈ data.map (fun kb => kb.2.mode)) ∧
     (∀ s ∈ (BenchmarksReport.init data).benchmarks_modes,
        (BenchmarksReport.init data).benchmarks_modes.count s = 1)) ∧
    accessorsPreserve (BenchmarksReport.init data) := by
  obtain ⟨hs1, hn1, hm1, hc1⟩ :=
    pySorted_dedup_props (data.map (fun kb => pyReplace kb.2.name "Benchmark" ""))
  obtain ⟨hs2, hn2, hm2, hc2⟩ := pySorted_dedup_props (data.map (fun kb => kb.2.mode))
  exact ⟨⟨hs1, hn1, hm1, hc1⟩, ⟨hs2, hn2, hm2, hc2⟩,
    accessors_preserve_all (BenchmarksReport.init data)⟩

/-- C2 counterexample: the stored name `"BenchmarkFoo" ++ "Benchmark"`
has the form `s + "Benchmark"` with `s = "BenchmarkFoo"`, yet the
displayed name is `"Foo"`, not `s`: `str.replace` removes every
occurrence of `"Benchmark"`, not only the final suffix. -/
theorem benchmark_name_strip_counterexample :
    repStray.benchmark_name "1" = some "Foo" ∧
    repStray.benchmark_name "1" ≠ some "BenchmarkFoo" := by decide

/-- C2 (amended): for every stored name of the form `s + "Benchmark"`
where `"Benchmark"` does not occur in `s`, the displayed name is `s`
and the rest of the name is unchanged. -/
theorem benchmark_name_strip_amended (r : BenchmarksReport) (key : String)
    (b : Benchmark) (s : String) (hb : r.lookup key = some b)
    (hname : b.name = s ++ "Benchmark")
    (hocc : ¬ ("Benchmark".data <:+: s.data)) :
    r.benchmark_name key = some s :=
  benchmark_name_strips r key b s hb hname hocc

/-- C2 witness: the record stored as `"Foo" ++ "Benchmark"` displays as
`"Foo"`. -/
theorem benchmark_name_strip_amended_witness :
    (repFoo.lookup "1" = some bFoo ∧ bFoo.name = "Foo" ++ "Benchmark" ∧
      ¬ ("Benchmark".data <:+: "Foo".data)) ∧
    repFoo.benchmark_name "1" = some "Foo" :=
  ⟨⟨by decide, by decide, by decide⟩,
   benchmark_name_strip_amended repFoo "1" bFoo "Foo" (by decide) (by decide) (by decide)⟩

/-- C1: under the precondition that scenario-statistics entries with
equal `(threads, operations)` keys are consecutive (stated as: the keys
`itertools.groupby` produces are pairwise distinct, which is equivalent),
`benchmark_average_runtime_by_scenario_params` assigns every produced
entry the average `sum(runningTimeNano) / sum(invocationsCount)` over
all entries of its key, divided by the unit's fixed ratio, and every
input key is covered by some entry. -/
theorem avg_runtime_by_scenario_params_spec (r : BenchmarksReport) (bid : String)
    (u : TimeUnit) (stats : List ScenarioStats) (res : List AvgRuntimeEntry)
    (hs : r.benchmark_scenarios_stats bid = some stats)
    (hchunk : ((pyGroupBy statKey stats).map Prod.fst).Nodup)
    (hres : r.benchmark_average_runtime_by_scenario_params bid u = some res) :
    (∀ e ∈ res, e.avg_runtime =
      (((stats.filter (fun s => decide (statKey s = e.params))).map
          ScenarioStats.runningTimeNano).sum : ℚ) /
        (((stats.filter (fun s => decide (statKey s = e.params))).map
          ScenarioStats.invocationsCount).sum : ℚ) / (u.value : ℚ)) ∧
    (∀ s ∈ stats, ∃ e ∈ res, e.params = statKey s) := by
  unfold BenchmarksReport.benchmark_average_runtime_by_scenario_params at hres
  rw [hs] at hres
  simp only [Option.map_some', Option.some.injEq] at hres
  subst hres
  constructor
  · intro e he
    obtain ⟨pg, hpg, rfl⟩ := List.mem_map.mp he
    have hg := pyGroupBy_filter statKey stats hchunk pg hpg
    simp only [as_time_unit]
    rw [hg]
  · intro s hs2
    obtain ⟨pg, hpg, hfst⟩ := List.mem_map.mp (key_mem_pyGroupBy statKey stats s hs2)
    exact ⟨_, List.mem_map_of_mem _ hpg, hfst⟩

/-- C1 witness: the spec's worked example.  Two entries with
`threads = 2`, `operations = 10`, runtimes 100 and 300 ns and one
invocation each average to `(400 / 2) / 10^6 = 1/5000 = 0.0002`
milliseconds, and the averaging formula of the main theorem holds of the
produced list. -/
theorem avg_runtime_by_scenario_params_spec_witness :
    (repFoo.benchmark_scenarios_stats "1" = some statsC1 ∧
     ((pyGroupBy statKey statsC1).map Prod.fst).Nodup ∧
     repFoo.benchmark_average_runtime_by_scenario_params "1" TimeUnit.MILLI =
       some [{ params := (2, 10), avg_runtime := (1 : ℚ) / 5000 }] ∧
     (1 : ℚ) / 5000 = 0.0002) ∧
    ((∀ e ∈ [({ params := (2, 10), avg_runtime := (1 : ℚ) / 5000 } : AvgRuntimeEntry)],
        e.avg_runtime =
          (((statsC1.filter (fun s => decide (statKey s = e.params))).map
              ScenarioStats.runningTimeNano).sum : ℚ) /
            (((statsC1.filter (fun s => decide (statKey s = e.params))).map
              ScenarioStats.invocationsCount).sum : ℚ) / (TimeUnit.MILLI.value : ℚ)) ∧
     (∀ s ∈ statsC1,
        ∃ e ∈ [({ params := (2, 10), avg_runtime := (1 : ℚ) / 5000 } : AvgRuntimeEntry)],
          e.params = statKey s)) :=
  ⟨⟨by decide, by decide, by decide, by decide⟩,
   avg_runtime_by_scenario_params_spec repFoo "1" TimeUnit.MILLI statsC1
     [{ params := (2, 10), avg_runtime := (1 : ℚ) / 5000 }]
     (by decide) (by decide) (by decide)⟩

/-- C5: `round_up_to n 10` is the least multiple of ten at least `n`
(for non-negative `n`), and whenever `runtime_plot` draws, its y-limits
are `0` and `round_up_to` of the maximum per-benchmark runtime in
seconds. -/
theorem runtime_plot_ylim_round_up (n : ℚ) (r : BenchmarksReport)
    (d : List (String × ℚ)) (m : ℚ) (res : RuntimePlotResult)
    (hn : 0 ≤ n)
    (hd : r.benchmarks_runtime TimeUnit.SEC = some d)
    (hm : (d.map Prod.snd).max? = some m)
    (hres : runtime_plot r = some res) :
    (n ≤ ((round_up_to n 10 : ℤ) : ℚ) ∧
     (10 : ℤ) ∣ round_up_to n 10 ∧
     ∀ k : ℤ, (10 : ℤ) ∣ k → n ≤ (k : ℚ) → round_up_to n 10 ≤ k) ∧
    res.ylim_lo = 0 ∧ res.ylim_hi = round_up_to m 10 := by
  refine ⟨⟨?_, ?_, ?_⟩, ?_⟩
  · unfold round_up_to
    have h1 : n / ((10 : ℤ) : ℚ) ≤ (⌈n / ((10 : ℤ) : ℚ)⌉ : ℚ) := Int.le_ceil _
    have h2 := mul_le_mul_of_nonneg_right h1
      (show (0 : ℚ) ≤ ((10 : ℤ) : ℚ) by push_cast; norm_num)
    rw [div_mul_cancel₀] at h2
    · push_cast at h2 ⊢
      linarith
    · push_cast
      norm_num
  · exact dvd_mul_left 10 _
  · intro k hk hnk
    obtain ⟨j, rfl⟩ := hk
    unfold round_up_to
    have hj : n / ((10 : ℤ) : ℚ) ≤ (j : ℚ) := by
      rw [div_le_iff₀ (by push_cast; norm_num : (0 : ℚ) < ((10 : ℤ) : ℚ))]
      push_cast at hnk ⊢
      linarith
    have hcj := Int.ceil_le.mpr hj
    nlinarith [hcj]
  · unfold runtime_plot at hres
    rw [hd] at hres
    simp only [Option.bind_eq_bind, Option.some_bind] at hres
    rw [hm] at hres
    simp only [Option.some_bind] at hres
    rcases hbars : r.benchmarks_modes.foldlM
        (fun acc mode =>
          (r.benchmarks_runtime_with_mode mode TimeUnit.SEC).bind fun dd =>
            pure (acc ++ [(mode, dd.map Prod.snd)]))
        ([] : List (String × List ℚ)) with _ | bars
    · rw [hbars] at hres
      simp at hres
    · rw [hbars] at hres
      simp only [Option.some_bind, Option.pure_def, Option.some.injEq] at hres
      subst hres
      exact ⟨rfl, rfl⟩

/-- C5 witness: on `repFoo` (total runtime 400 ns) the maximum runtime in
seconds is `400/10^9`, `runtime_plot` succeeds, and its y-limits are `0`
and `round_up_to` of that maximum; the rounding bounds are also
instantiated at `n = 23/10`. -/
theorem runtime_plot_ylim_round_up_witness :
    (0 ≤ (23 : ℚ) / 10 ∧
     repFoo.benchmarks_runtime TimeUnit.SEC = some [("1", (400 : ℚ) / 1000000000)] ∧
     ([("1", (400 : ℚ) / 1000000000)].map Prod.snd).max? = some ((400 : ℚ) / 1000000000) ∧
     runtime_plot repFoo = some resFoo) ∧
    (((23 : ℚ) / 10 ≤ ((round_up_to ((23 : ℚ) / 10) 10 : ℤ) : ℚ) ∧
      (10 : ℤ) ∣ round_up_to ((23 : ℚ) / 10) 10 ∧
      ∀ k : ℤ, (10 : ℤ) ∣ k → (23 : ℚ) / 10 ≤ (k : ℚ) →
        round_up_to ((23 : ℚ) / 10) 10 ≤ k) ∧
     resFoo.ylim_lo = 0 ∧ resFoo.ylim_hi = round_up_to ((400 : ℚ) / 1000000000) 10) :=
  ⟨⟨by decide, by decide, by decide, by decide⟩,
   runtime_plot_ylim_round_up ((23 : ℚ) / 10) repFoo
     [("1", (400 : ℚ) / 1000000000)] ((400 : ℚ) / 1000000000) resFoo
     (by decide) (by decide) (by decide) (by decide)⟩

/-- C9: the `assert params == scenario_params` of
`scenarios_average_runtime_plot` never fires when every mode of the
report resolves the benchmark name to an id whose sorted scenario-key
list is one common list `L` (the renderer then returns normally); and
without that precondition it fails: on `repScenBad`, whose two modes
produce the key lists `[(2, 10)]` and `[(4, 20)]`, the renderer raises
`AssertionError`. -/
theorem scenarios_assertion_spec (r : BenchmarksReport) (bname : String)
    (L : List (ℤ × ℤ))
    (hpre : ∀ mode ∈ r.benchmarks_modes, ∃ bid : ℤ,
      r.benchmark_id bname mode = some bid ∧
      (r.benchmark_average_runtime_by_scenario_params (toString bid) TimeUnit.MILLI).map
        (fun data => (sortByParams data).map AvgRuntimeEntry.params) = some L) :
    (∃ out, scenarios_average_runtime_plot r bname = Except.ok out) ∧
    scenarios_average_runtime_plot repScenBad "X" = Except.error PyError.assertionError := by
  constructor
  · obtain ⟨acc, hacc⟩ :=
      scenarios_fold_ok r bname L r.benchmarks_modes hpre ⟨0, [], []⟩ (Or.inl rfl)
    have hplot : scenarios_average_runtime_plot r bname = Except.ok
        { title := bname ++ "\nInvocation average running time by scenario size",
          ylabel := "time (ms)", xlabel := "(#threads, #operations)",
          xticks_count := acc.x, xtick_labels := acc.params, bars := acc.bars } := by
      unfold scenarios_average_runtime_plot
      rw [hacc]
      rfl
    exact ⟨_, hplot⟩
  · rfl

/-- C9 witness: on `repScenGood` both modes of benchmark `X` sort to the
key list `[(2, 10)]`, the precondition holds, and the renderer returns
normally, while `repScenBad` raises `AssertionError`. -/
theorem scenarios_assertion_spec_witness :
    (∀ mode ∈ repScenGood.benchmarks_modes, ∃ bid : ℤ,
      repScenGood.benchmark_id "X" mode = some bid ∧
      (repScenGood.benchmark_average_runtime_by_scenario_params (toString bid)
          TimeUnit.MILLI).map
        (fun data => (sortByParams data).map AvgRuntimeEntry.params) = some [(2, 10)]) ∧
    ((∃ out, scenarios_average_runtime_plot repScenGood "X" = Except.ok out) ∧
     scenarios_average_runtime_plot repScenBad "X" =
       Except.error PyError.assertionError) := by
  have hpre : ∀ mode ∈ repScenGood.benchmarks_modes, ∃ bid : ℤ,
      repScenGood.benchmark_id "X" mode = some bid ∧
      (repScenGood.benchmark_average_runtime_by_scenario_params (toString bid)
          TimeUnit.MILLI).map
        (fun data => (sortByParams data).map AvgRuntimeEntry.params) = some [(2, 10)] := by
    intro mode hm
    have hmodes : repScenGood.benchmarks_modes = ["a", "b"] := by decide
    rw [hmodes] at hm
    rcases List.mem_cons.mp hm with rfl | hm2
    · exact ⟨1, by decide, by decide⟩
    · rcases List.mem_singleton.mp hm2 with rfl
      exact ⟨2, by decide, by decide⟩
  exact ⟨hpre, scenarios_assertion_spec repScenGood "X" [(2, 10)] hpre⟩

/-- C10: for a record stored as `s + "Benchmark"` where `"Benchmark"`
does not occur in `s` and whose (stored name, mode) pair determines its
id uniquely in the report, `benchmark_id(benchmark_name(bid),
benchmark_mode(bid))` recovers the record's `"id"` field; and when
`"Benchmark"` occurs beyond the single suffix the round-trip fails with
a lookup error, as on `repStray`, whose record `"BenchmarkFooBenchmark"`
displays as `"Foo"` yet `benchmark_id("Foo", "m")` finds nothing. -/
theorem benchmark_id_roundtrip (r : BenchmarksReport) (key : String) (b : Benchmark)
    (s : String) (hb : r.lookup key = some b) (hname : b.name = s ++ "Benchmark")
    (hocc : ¬ ("Benchmark".data <:+: s.data))
    (huniq : ∀ bb ∈ r.values, bb.name = b.name → bb.mode = b.mode → bb.id = b.id) :
    (r.benchmark_name key = some s ∧ r.benchmark_id s b.mode = some b.id) ∧
    (repStray.benchmark_name "1" = some "Foo" ∧
     repStray.benchmark_id "Foo" "m" = none) := by
  refine ⟨⟨benchmark_name_strips r key b s hb hname hocc, ?_⟩, by decide, by decide⟩
  unfold BenchmarksReport.benchmark_id
  have hbmem : b ∈ r.values := by
    unfold BenchmarksReport.lookup at hb
    obtain ⟨kb, hkb, hkb2⟩ := Option.map_eq_some'.mp hb
    exact hkb2 ▸ List.mem_map_of_mem Prod.snd (List.mem_of_find?_eq_some hkb)
  have hpred : (b.name == s ++ "Benchmark" && b.mode == b.mode) = true := by
    simp [hname]
  have hsome : (r.values.find?
      (fun bb => bb.name == s ++ "Benchmark" && bb.mode == b.mode)).isSome := by
    rw [List.find?_isSome]
    exact ⟨b, hbmem, hpred⟩
  obtain ⟨bb, hbb⟩ := Option.isSome_iff_exists.mp hsome
  have hbbp := List.find?_some hbb
  simp only [Bool.and_eq_true, beq_iff_eq] at hbbp
  have hbbmem := List.mem_of_find?_eq_some hbb
  have hid : bb.id = b.id := huniq bb hbbmem (by rw [hbbp.1, hname]) hbbp.2
  rw [hbb]
  simp [hid]

/-- C10 witness: the record of `repFoo`, stored as `"Foo" ++ "Benchmark"`
with mode `"stress"` and id 1, round-trips through
`benchmark_id(benchmark_name, benchmark_mode)`, and the `repStray`
round-trip fails with a lookup error. -/
theorem benchmark_id_roundtrip_witness :
    (repFoo.lookup "1" = some bFoo ∧ bFoo.name = "Foo" ++ "Benchmark" ∧
      ¬ ("Benchmark".data <:+: "Foo".data) ∧
      (∀ bb ∈ repFoo.values, bb.name = bFoo.name → bb.mode = bFoo.mode →
        bb.id = bFoo.id)) ∧
    ((repFoo.benchmark_name "1" = some "Foo" ∧
      repFoo.benchmark_id "Foo" bFoo.mode = some bFoo.id) ∧
     (repStray.benchmark_name "1" = some "Foo" ∧
      repStray.benchmark_id "Foo" "m" = none)) :=
  ⟨⟨by decide, by decide, by decide, by decide⟩,
   benchmark_id_roundtrip repFoo "1" bFoo "Foo"
     (by decide) (by decide) (by decide) (by decide)⟩
